import Mathlib

/-!
Verification of the Ausbildungsnachweis Excel-to-Markdown converter
(src/ausbildungsnachweis_converter.py) against its natural-language
specification.  The Python source is shallowly embedded: spreadsheet cells
become a closed variant type, the pandas frame becomes a rectangular
indexed grid, the row-scanning day aggregator becomes a fold over rows with
an explicit state record, and the fallible operations (regex search on the
filename, strptime date parsing, int()/float() conversion) become
Option/Except-valued functions.
-/

namespace Nachweis

/-- A spreadsheet cell as seen by the converter: pandas NaN/None (empty),
a string, a datetime value, or a numeric value.  Numeric cell values are
modelled as rationals. -/
inductive Cell where
  | empty
  | text (s : String)
  | dateTime (d : Int × Nat × Nat)
  | number (q : Rat)
deriving DecidableEq

/-- A calendar date as carried by a Python datetime at midnight:
year, month, day. -/
structure PyDate where
  year : Int
  month : Nat
  day : Nat
deriving DecidableEq

/-- Cell holding a datetime, rebuilt with the date payload as a PyDate. -/
def Cell.date (d : PyDate) : Cell := Cell.dateTime (d.year, d.month, d.day)

deriving instance DecidableEq for Except

/-- Models pd.notna: false exactly on the empty (NaN/None) cell. -/
def notnaB : Cell → Bool
  | .empty => false
  | _ => true

/-- Numeric value of a digit string, most significant digit first. -/
def digitsToNat (cs : List Char) : Nat :=
  cs.foldl (fun a c => a * 10 + (c.toNat - '0'.toNat)) 0

/-- Split a character list at every separator character, keeping empty
chunks, as Python str.split with an explicit separator does. -/
def splitChars (p : Char → Bool) : List Char → List (List Char)
  | [] => [[]]
  | c :: rest =>
    if p c then [] :: splitChars p rest
    else
      match splitChars p rest with
      | [] => [[c]]
      | h :: t => (c :: h) :: t

/-- String splitting on a character predicate, keeping empty pieces
(Python str.split with an explicit separator). -/
def splitStr (s : String) (p : Char → Bool) : List String :=
  (splitChars p s.toList).map String.mk

/-- Strip leading and trailing whitespace, models Python str.strip with no
arguments. -/
def pyStrip (s : String) : String :=
  String.mk (((s.toList.dropWhile Char.isWhitespace).reverse.dropWhile Char.isWhitespace).reverse)

/-- Join strings with a separator, models str.join. -/
def joinWith (sep : String) : List String → String
  | [] => ""
  | [x] => x
  | x :: rest => x ++ sep ++ joinWith sep rest

/-- First line of a text: everything before the first newline. -/
def firstLine (s : String) : String :=
  (splitStr s (fun c => c = '\n')).headD ""

/-- Consume an optional leading sign, returning the sign and the rest. -/
def readSign : List Char → Int × List Char
  | '+' :: r => (1, r)
  | '-' :: r => (-1, r)
  | cs => (1, cs)

/-- Models Python int(str): optional surrounding whitespace, optional sign,
then one or more digits and nothing else.  (Underscore digit grouping is
not modelled; no input in this development uses it.) -/
def pyIntOfString (s : String) : Option Int :=
  let cs := (pyStrip s).toList
  let (sgn, cs1) := readSign cs
  let (ds, rest) := cs1.span Char.isDigit
  if ds.isEmpty ∨ ¬ rest.isEmpty then none else some (sgn * (digitsToNat ds : Int))

/-- Models Python float(str) on ordinary decimal literals: optional
whitespace and sign, digits with an optional fractional part, optional
exponent.  (inf/nan spellings are not modelled; no claim depends on them.) -/
def pyFloatOfString (s : String) : Option Rat :=
  let cs := (pyStrip s).toList
  let (sgn, cs1) := readSign cs
  let (ip, cs2) := cs1.span Char.isDigit
  let (fp, cs3) :=
    match cs2 with
    | '.' :: r => (r.span Char.isDigit).1 |> fun f => (f, (r.span Char.isDigit).2)
    | _ => ([], cs2)
  if ip.isEmpty ∧ fp.isEmpty then none
  else
    let mant : Int := sgn * (digitsToNat (ip ++ fp) : Int)
    let scale : Nat := fp.length
    let mk : Int → Option Rat := fun e =>
      let ex : Int := e - (scale : Int)
      if 0 ≤ ex then some ((mant * (10 ^ ex.toNat) : Int) : Rat)
      else some ((mant : Rat) / ((10 ^ (-ex).toNat : Nat) : Rat))
    match cs3 with
    | [] => mk 0
    | c :: r =>
      if c = 'e' ∨ c = 'E' then
        let (es, r1) := readSign r
        let (ed, r2) := r1.span Char.isDigit
        if ed.isEmpty ∨ ¬ r2.isEmpty then none
        else mk (es * (digitsToNat ed : Int))
      else none

/-- Models Python int() truncation toward zero of a float value. -/
def ratTruncInt (q : Rat) : Int := Int.tdiv q.num (q.den : Int)

/-- Canonical textual rendering of a datetime cell, as Python str() would
produce for a midnight timestamp.  Only its non-emptiness matters here. -/
def pad2 (n : Nat) : String := if n < 10 then "0" ++ toString n else toString n

/-- Zero-pad a nonnegative year to four digits, as strftime with the
four-digit-year directive does. -/
def pad4 (y : Int) : String :=
  if y < 0 then toString y
  else
    let s := toString y.toNat
    String.mk (List.replicate (4 - s.length) '0') ++ s

/-- Collapse whitespace runs to single spaces and trim the ends.  Models
the Python idiom of joining str.split() with single spaces. -/
def normWS (s : String) : String :=
  joinWith " " ((splitStr s Char.isWhitespace).filter (fun t => t ≠ ""))

/-- Models clean_text (source lines 53-58): empty cells map to the empty
string, any other cell is rendered with str() and whitespace-normalized.
The str() renderings of datetime and numeric cells are canonical stand-ins;
both are nonempty, which is the only fact the converter relies on. -/
def clean_text : Cell → String
  | .empty => ""
  | .text s => normWS s
  | .dateTime d => pad4 d.1 ++ "-" ++ pad2 d.2.1 ++ "-" ++ pad2 d.2.2 ++ " 00:00:00"
  | .number q => "num:" ++ toString q.num ++ "/" ++ toString q.den

/-- Models float() applied to a cell value (source line 167): numbers pass
through, strings are parsed, datetime values raise (hence none).  The empty
cell is unreachable there because the call is guarded by pd.notna. -/
def floatOfCell : Cell → Option Rat
  | .number q => some q
  | .text s => pyFloatOfString s
  | .dateTime _ => none
  | .empty => none

/-- Models int() applied to a cell value (source line 78): numeric values
truncate toward zero, strings are parsed as integers, datetime values
raise (hence none). -/
def pyIntOfCell : Cell → Option Int
  | .number q => some (ratTruncInt q)
  | .text s => pyIntOfString s
  | .dateTime _ => none
  | .empty => none

/-- Substring containment test, models the Python in-operator on strings. -/
def strContains (hay needle : String) : Bool :=
  let h := hay.toList
  let n := needle.toList
  (List.range (h.length + 1)).any (fun i => n.isPrefixOf (h.drop i))

/-- Dates compared as Python compares datetimes at midnight:
lexicographically by year, month, day.  Boolean less-or-equal. -/
def dateLE (a b : PyDate) : Bool :=
  if a.year ≠ b.year then a.year < b.year
  else if a.month ≠ b.month then a.month < b.month
  else a.day ≤ b.day

/-- Models pathlib Path(filename).stem: the final path component with its
last suffix removed; a suffix exists only when the last dot is neither the
first character nor the last. -/
def pathStem (filename : String) : String :=
  let name := (splitStr filename (fun c => c = '/')).getLastD filename
  let cs := name.toList
  let idxs := (List.range cs.length).filter (fun i => cs.getD i ' ' = '.')
  match idxs.getLast? with
  | some i => if 0 < i ∧ i + 1 < cs.length then String.mk (cs.take i) else name
  | none => name

/-- Two decimal digits, consumed as a string. -/
def twoDigits : List Char → Option (String × List Char)
  | a :: b :: r => if a.isDigit ∧ b.isDigit then some (String.mk [a, b], r) else none
  | _ => none

/-- Matches an optional group of a dot and two digits (greedily consumed
when it fits); models the optional dot-plus-two-digits group of the
filename regex. -/
def matchOpt2 : List Char → Option (List Char)
  | '.' :: a :: b :: r => if a.isDigit ∧ b.isDigit then some r else none
  | _ => none

/-- Matches optional whitespace, the literal dash separator, and optional
whitespace after it.  Both whitespace runs are consumed greedily; since
whitespace never overlaps with what follows, this is deterministic. -/
def matchDash (cs : List Char) : Option (List Char) :=
  match cs.dropWhile Char.isWhitespace with
  | '-' :: r => some (r.dropWhile Char.isWhitespace)
  | _ => none

/-- The regex tail between group 1 and the dash: an optional dot-plus-two-
digits group (tried greedily, backtracked if the dash then fails) and the
dash itself. -/
def matchO1dash (cs : List Char) : Option (List Char) :=
  match matchOpt2 cs with
  | some r =>
    match matchDash r with
    | some r2 => some r2
    | none => matchDash cs
  | none => matchDash cs

/-- Group 1 of the filename regex: two digits, a dot, two digits, then an
optional trailing dot (greedy, backtracked when the rest cannot match),
followed by the optional two-digit year group and the dash.  Returns the
captured group text and the remaining input after the dash. -/
def matchG1 (cs : List Char) : Option (String × List Char) :=
  (twoDigits cs).bind fun p1 =>
    match p1.2 with
    | '.' :: r2 =>
      (twoDigits r2).bind fun p2 =>
        let base := p1.1 ++ "." ++ p2.1
        match p2.2 with
        | '.' :: r4 =>
          (match matchO1dash r4 with
           | some r5 => some (base ++ ".", r5)
           | none => (matchO1dash ('.' :: r4)).map (fun r5 => (base, r5)))
        | r3 => (matchO1dash r3).map (fun r5 => (base, r5))
    | _ => none

/-- Group 2 of the filename regex: two digits, a dot or dash separator,
two digits, and an optional trailing dot (greedy; nothing after it is
required, so no backtracking is needed). -/
def matchG2 (cs : List Char) : Option String :=
  (twoDigits cs).bind fun p1 =>
    match p1.2 with
    | c :: r2 =>
      if c = '.' ∨ c = '-' then
        (twoDigits r2).map fun p2 =>
          let base := p1.1 ++ String.mk [c] ++ p2.1
          match p2.2 with
          | '.' :: _ => base ++ "."
          | _ => base
      else none
    | _ => none

/-- Attempt the whole filename date pattern at one position: a literal
underscore, group 1, the separator, group 2. -/
def matchAt : List Char → Option (String × String)
  | '_' :: r => (matchG1 r).bind fun p => (matchG2 p.2).map fun g2 => (p.1, g2)
  | _ => none

/-- Leftmost regex search: try the pattern at each start position in order,
as re.search does. -/
def searchFrom : List Char → Option (String × String)
  | [] => none
  | c :: rest =>
    match matchAt (c :: rest) with
    | some g => some g
    | none => searchFrom rest

/-- Strip all trailing dots, models str.rstrip with a dot argument. -/
def rstripDots (s : String) : String :=
  String.mk ((s.toList.reverse.dropWhile (fun c => c = '.')).reverse)

/-- Replace every dash by a dot, models str.replace. -/
def dashToDot (s : String) : String :=
  String.mk (s.toList.map (fun c => if c = '-' then '.' else c))

/-- Models parse_dates_from_filename (source lines 26-40): search the
filename stem for the date-pair pattern; normalize the raw tokens (strip a
trailing dot from the start token; turn dashes into dots and strip a
trailing dot in the end token).  None models the (None, None, None)
return. -/
def parse_dates_from_filename (filename : String) : Option (String × String × String) :=
  let base := pathStem filename
  (searchFrom base.toList).map fun g =>
    (rstripDots g.1, rstripDots (dashToDot g.2), base)

/-- Errors of the date parser: a token with an unsupported number of
dot-separated parts (the explicit ValueError of source line 51), or a
strptime failure on a syntactically dispatched token. -/
inductive DateErr where
  | formatErr (s : String)
  | parseErr
deriving DecidableEq

/-- Numeric field of bounded width, as the strptime field regexes accept. -/
def fieldNat (minLen maxLen : Nat) (s : String) : Option Nat :=
  let cs := s.toList
  if minLen ≤ cs.length ∧ cs.length ≤ maxLen ∧ cs.all Char.isDigit then
    some (digitsToNat cs)
  else none

/-- Day field: one or two digits, value 1 to 31. -/
def matchDayF (s : String) : Option Nat :=
  (fieldNat 1 2 s).bind fun n => if 1 ≤ n ∧ n ≤ 31 then some n else none

/-- Month field: one or two digits, value 1 to 12. -/
def matchMonF (s : String) : Option Nat :=
  (fieldNat 1 2 s).bind fun n => if 1 ≤ n ∧ n ≤ 12 then some n else none

/-- Two-digit year field with the strptime pivot: 0-68 maps to 2000-2068,
69-99 maps to 1969-1999. -/
def matchY2F (s : String) : Option Int :=
  (fieldNat 2 2 s).map fun n => if n ≤ 68 then (2000 + n : Int) else (1900 + n : Int)

/-- Four-digit year field. -/
def matchY4F (s : String) : Option Int :=
  (fieldNat 4 4 s).map fun n => (n : Int)

/-- Gregorian leap-year rule. -/
def isLeap (y : Int) : Bool :=
  Int.emod y 4 == 0 && (Int.emod y 100 != 0 || Int.emod y 400 == 0)

/-- Length of a month in the proleptic Gregorian calendar. -/
def daysInMonth (y : Int) (m : Nat) : Nat :=
  if m = 2 then (if isLeap y then 29 else 28)
  else if m = 4 ∨ m = 6 ∨ m = 9 ∨ m = 11 then 30
  else 31

/-- Date validation as the Python datetime constructor performs it. -/
def mkValidDate (y : Int) (m d : Nat) : Option PyDate :=
  if 1 ≤ y ∧ y ≤ 9999 ∧ 1 ≤ m ∧ m ≤ 12 ∧ 1 ≤ d ∧ d ≤ daysInMonth y m then
    some ⟨y, m, d⟩
  else none

/-- Models strptime with format day dot month dot two-digit-year: the
string must consist of exactly three dot-separated numeric fields matching
the day, month and two-digit-year field shapes, and the resulting date
must be valid. -/
def strptimeDMY2 (s : String) : Except DateErr PyDate :=
  match splitStr s (fun c => c = '.') with
  | [ds, ms, ys] =>
    match matchDayF ds, matchMonF ms, matchY2F ys with
    | some d, some m, some y =>
      match mkValidDate y m d with
      | some dt => Except.ok dt
      | none => Except.error DateErr.parseErr
    | _, _, _ => Except.error DateErr.parseErr
  | _ => Except.error DateErr.parseErr

/-- Models strptime with format day dot month dot four-digit-year. -/
def strptimeDMY4 (s : String) : Except DateErr PyDate :=
  match splitStr s (fun c => c = '.') with
  | [ds, ms, ys] =>
    match matchDayF ds, matchMonF ms, matchY4F ys with
    | some d, some m, some y =>
      match mkValidDate y m d with
      | some dt => Except.ok dt
      | none => Except.error DateErr.parseErr
    | _, _, _ => Except.error DateErr.parseErr
  | _ => Except.error DateErr.parseErr

/-- Models parse_date (source lines 42-51): dispatch on the number of
dot-separated parts; three parts go through the two-digit-year format, two
parts are combined with the resolved year and go through the
four-digit-year format, anything else raises the explicit format
ValueError. -/
def parse_date (date_str : String) (default_year : String) : Except DateErr PyDate :=
  let parts := splitStr date_str (fun c => c = '.')
  if parts.length = 3 then strptimeDMY2 date_str
  else if parts.length = 2 then strptimeDMY4 (date_str ++ "." ++ default_year)
  else Except.error (DateErr.formatErr date_str)

/-- Days since 1970-01-01 in the proleptic Gregorian calendar (civil-days
algorithm, using floor division so that negative years work uniformly). -/
def daysFromCivil (dt : PyDate) : Int :=
  let yy : Int := if dt.month ≤ 2 then dt.year - 1 else dt.year
  let era : Int := Int.fdiv yy 400
  let yoe : Int := yy - era * 400
  let mp : Int := if 2 < dt.month then (dt.month : Int) - 3 else (dt.month : Int) + 9
  let doy : Int := Int.fdiv (153 * mp + 2) 5 + (dt.day : Int) - 1
  let doe : Int := yoe * 365 + Int.fdiv yoe 4 - Int.fdiv yoe 100 + doy
  era * 146097 + doe - 719468

/-- ISO weekday: Monday is 1, Sunday is 7.  1970-01-01 was a Thursday. -/
def isoWeekday (dt : PyDate) : Int := Int.emod (daysFromCivil dt + 3) 7 + 1

/-- Ordinal day within the year, 1-based. -/
def ordinalDay (dt : PyDate) : Int :=
  daysFromCivil dt - daysFromCivil ⟨dt.year, 1, 1⟩ + 1

/-- Number of ISO weeks in a year: 53 exactly when the year contains 53
Thursdays, i.e. when January 1 or December 31 is a Thursday. -/
def isoWeeksInYear (y : Int) : Nat :=
  if isoWeekday ⟨y, 1, 1⟩ = 4 ∨ isoWeekday ⟨y, 12, 31⟩ = 4 then 53 else 52

/-- Modelled from the Python standard library: datetime.isocalendar per the
ISO-8601 week rule (weeks start Monday; week 1 contains the year's first
Thursday).  Returns the ISO year and ISO week of a date. -/
def isoWeekYear (dt : PyDate) : Int × Nat :=
  let wd := isoWeekday dt
  let w : Int := Int.fdiv (ordinalDay dt - wd + 10) 7
  if w < 1 then (dt.year - 1, isoWeeksInYear (dt.year - 1))
  else if (isoWeeksInYear dt.year : Int) < w then (dt.year + 1, 1)
  else (dt.year, w.toNat)

/-- The rectangular cell grid produced by reading the spreadsheet with
pandas: a row count, a column count, and the cell at each in-range
position.  (A pandas frame is always rectangular; out-of-range integer
indexing raises IndexError, modelled below.) -/
structure DataFrame where
  nrows : Nat
  ncols : Nat
  cellF : Nat → Nat → Cell

/-- Errors that abort a single file conversion: the filename does not
match the date-token grammar (source line 69), an out-of-range positional
grid access (pandas IndexError), or a date token failing to parse
(source lines 84-85). -/
inductive ConvError where
  | formatError (filename : String)
  | indexError
  | dateError
deriving DecidableEq

/-- Positional scalar access df.iloc, raising IndexError out of range. -/
def DataFrame.ilocE (df : DataFrame) (r c : Nat) : Except ConvError Cell :=
  if r < df.nrows ∧ c < df.ncols then Except.ok (df.cellF r c) else Except.error ConvError.indexError

/-- Models the year-resolution block (source lines 74-82).  When the frame
has more than 11 columns, the metadata cell at row 2, column 11 is read
first (an out-of-range read raises); a non-NaN value convertible with
int() wins, a failed conversion falls back to the dot-24 filename test and
then the default year; with at most 11 columns or a NaN cell the dot-24
test and default apply directly. -/
def actualYearE (df : DataFrame) (filename default_year : String) : Except ConvError String :=
  let fallback : String := if strContains filename ".24" then "2024" else default_year
  if 11 < df.ncols then
    match df.ilocE 2 11 with
    | Except.error e => Except.error e
    | Except.ok c =>
      if notnaB c then
        match pyIntOfCell c with
        | some n => Except.ok (toString n)
        | none => Except.ok fallback
      else Except.ok fallback
  else Except.ok fallback

/-- A finalized daily record: the date the day was opened with, the
cleaned activity strings in scan order, and the optional hours value. -/
structure DailyRecord where
  date : PyDate
  activities : List String
  hours : Option Rat
deriving DecidableEq

/-- The aggregator's mutable loop state (source lines 122-124): the open
day's date if any, the accumulated activity buffer, the pending hours
value, and the records emitted so far (the source appends their rendered
lines to the document as they are flushed). -/
structure AggState where
  current_date : Option PyDate
  daily_activities : List String
  pending_hours : Option Rat
  recs : List DailyRecord
deriving DecidableEq

/-- The initial aggregator state: no open day, empty buffers. -/
def initState : AggState := ⟨none, [], none, []⟩

/-- Models flush_day (source lines 126-143): nothing is emitted unless a
day is open and at least one activity was recorded; otherwise one record
with the current date, activities and pending hours is emitted. -/
def flushRecs (st : AggState) : List DailyRecord :=
  match st.current_date with
  | none => []
  | some d =>
    if st.daily_activities = [] then []
    else [⟨d, st.daily_activities, st.pending_hours⟩]

/-- The date-column cell of a row (index 1; None when the row is
shorter). -/
def rowDate (row : List Cell) : Cell := row.getD 1 Cell.empty

/-- The activity-column cell of a row (index 2). -/
def rowActivity (row : List Cell) : Cell := row.getD 2 Cell.empty

/-- The hours-column cell of a row (index 11). -/
def rowHours (row : List Cell) : Cell := row.getD 11 Cell.empty

/-- The isinstance test of source line 153: a non-NaN datetime-typed cell
yields its date. -/
def asDate : Cell → Option PyDate
  | .dateTime d => some ⟨d.1, d.2.1, d.2.2⟩
  | _ => none

/-- One iteration of the row loop (source lines 146-173).  A datetime in
the date column flushes the open day, opens a new one and skips the rest
of the row; otherwise a non-NaN activity cell with non-empty cleaned text
is appended (even when no day is open), and then a non-NaN hours cell
while a day is open sets the pending hours (None on a float() failure,
the swallowed row-level exception), flushes, and closes the day. -/
def stepRow (st : AggState) (row : List Cell) : AggState :=
  match asDate (rowDate row) with
  | some d =>
    { current_date := some d, daily_activities := [], pending_hours := none,
      recs := st.recs ++ flushRecs st }
  | none =>
    let st1 :=
      if notnaB (rowActivity row) then
        let t := clean_text (rowActivity row)
        if t = "" then st
        else { st with daily_activities := st.daily_activities ++ [t] }
      else st
    if notnaB (rowHours row) && st1.current_date.isSome then
      let st2 := { st1 with pending_hours := floatOfCell (rowHours row) }
      { current_date := none, daily_activities := [], pending_hours := none,
        recs := st2.recs ++ flushRecs st2 }
    else st1

/-- Run the row loop over a list of rows. -/
def runRows (st : AggState) (rows : List (List Cell)) : AggState :=
  rows.foldl stepRow st

/-- Records emitted by running the loop from a given state and flushing
once more at the end (source line 175). -/
def aggregateFrom (st : AggState) (rows : List (List Cell)) : List DailyRecord :=
  let fin := runRows st rows
  fin.recs ++ flushRecs fin

/-- The day aggregator: all daily records emitted for a row list. -/
def aggregate (rows : List (List Cell)) : List DailyRecord :=
  aggregateFrom initState rows

/-- Render a date as strftime day.month.four-digit-year. -/
def dmy (d : PyDate) : String := pad2 d.day ++ "." ++ pad2 d.month ++ "." ++ pad4 d.year

/-- Render a date as strftime day.month. -/
def dm (d : PyDate) : String := pad2 d.day ++ "." ++ pad2 d.month

/-- The document lines flush_day appends for one emitted record
(source lines 133-143): a date heading, a blank line, one bullet per
activity, and, when hours are set, a blank line and a bold hours line with
the value truncated by int(). -/
def recordLines (r : DailyRecord) : List String :=
  ["## " ++ dmy r.date, ""]
    ++ r.activities.map (fun a => "- " ++ a)
    ++ (match r.hours with
        | some q => ["", "**Stunden:** " ++ toString (ratTruncInt q)]
        | none => [])
    ++ [""]

/-- Models the data-start search (source lines 101-109): the first row
whose column-1 cell is a string containing the marker substring Tag sets
the start just below it; otherwise scanning starts at row 0. -/
def findDataStart (df : DataFrame) : Nat :=
  match (List.range df.nrows).find? (fun i =>
    if 1 < df.ncols then
      match df.cellF i 1 with
      | Cell.text s => strContains s "Tag"
      | _ => false
    else false) with
  | some i => i + 1
  | none => 0

/-- Row i of the frame as the list of its cells. -/
def DataFrame.row (df : DataFrame) (i : Nat) : List Cell :=
  (List.range df.ncols).map (df.cellF i)

/-- The rows scanned by the loop: from the data-start row to the end. -/
def DataFrame.dataRows (df : DataFrame) (startRow : Nat) : List (List Cell) :=
  ((List.range df.nrows).drop startRow).map df.row

/-- Models convert_excel_to_markdown (source lines 60-180): extract the
raw tokens from the filename, resolve the year, parse both dates, derive
the ISO week, read the header metadata cells with their fixed fallbacks,
aggregate the data rows, and build the document text and the output
filename. -/
def convert (df : DataFrame) (filename default_year : String) : Except ConvError (String × String) :=
  match parse_dates_from_filename filename with
  | none => Except.error (ConvError.formatError filename)
  | some (start_raw, end_raw, _base) => do
    let actual_year ← actualYearE df filename default_year
    let start_dt ←
      match parse_date start_raw actual_year with
      | Except.ok d => Except.ok d
      | Except.error _ => Except.error ConvError.dateError
    let end_dt ←
      match parse_date end_raw actual_year with
      | Except.ok d => Except.ok d
      | Except.error _ => Except.error ConvError.dateError
    let iso_week : Nat := (isoWeekYear start_dt).2
    let name0 ←
      if 7 < df.ncols then (df.ilocE 0 7).map clean_text
      else Except.ok "Nicolay, Dimitrios"
    let name := if name0 = "" then "Nicolay, Dimitrios" else name0
    let course0 ←
      if 7 < df.ncols then (df.ilocE 1 7).map clean_text
      else Except.ok "Fachinformatiker SI - U27B (IHK)"
    let course := if course0 = "" then "Fachinformatiker SI - U27B (IHK)" else course0
    let recs := aggregate (df.dataRows (findDataStart df))
    let headerLines : List String := [
      "# KW" ++ pad2 iso_week ++ " - Ausbildungsnachweis (" ++ dmy start_dt ++ " - " ++ dmy end_dt ++ ")",
      "",
      "**Name:** " ++ name ++ "  ",
      "**Ausbildung:** " ++ course ++ "  ",
      "**Jahr:** " ++ actual_year ++ "  ",
      "",
      "---",
      ""]
    let mdLines := headerLines ++ (recs.map recordLines).flatten
    let out := toString start_dt.year ++ "-KW" ++ pad2 iso_week
      ++ "-Ausbildungsnachweis-" ++ dm start_dt ++ "-" ++ dm end_dt ++ ".md"
    pure (out, pyStrip (joinWith "\n" mdLines))

/-- The date pair produced by source lines 84-85 once the year has been
resolved: the two filename tokens, each put through parse_date. -/
def dateRangeOf (filename year : String) : Option (PyDate × PyDate) :=
  match parse_dates_from_filename filename with
  | none => none
  | some (s, e, _) =>
    match parse_date s year, parse_date e year with
    | Except.ok d1, Except.ok d2 => some (d1, d2)
    | _, _ => none

/-! Canonical row shapes used to state grid-level properties. -/

/-- A row whose date column holds a datetime cell and nothing else. -/
def dateRow (d : PyDate) : List Cell := [Cell.empty, Cell.date d]

/-- A row whose activity column holds a text cell and nothing else. -/
def activityRow (s : String) : List Cell := [Cell.empty, Cell.empty, Cell.text s]

/-- A row whose hours column holds a numeric cell and nothing else. -/
def hoursRow (q : Rat) : List Cell :=
  [Cell.empty, Cell.empty, Cell.empty, Cell.empty, Cell.empty, Cell.empty,
   Cell.empty, Cell.empty, Cell.empty, Cell.empty, Cell.empty, Cell.number q]

/-! Step lemmas for the three row shapes and for rows classified only by
hypotheses on their cells. -/

lemma stepRow_dateCell (st : AggState) (row : List Cell) (d : PyDate)
    (h : asDate (rowDate row) = some d) :
    stepRow st row = ⟨some d, [], none, st.recs ++ flushRecs st⟩ := by
  unfold stepRow
  rw [h]

lemma stepRow_dateRow (st : AggState) (d : PyDate) :
    stepRow st (dateRow d) = ⟨some d, [], none, st.recs ++ flushRecs st⟩ :=
  stepRow_dateCell st (dateRow d) d rfl

lemma stepRow_activityRow (st : AggState) (s : String)
    (h : ¬ clean_text (Cell.text s) = "") :
    stepRow st (activityRow s)
      = { st with daily_activities := st.daily_activities ++ [clean_text (Cell.text s)] } := by
  simp [stepRow, activityRow, rowDate, rowActivity, rowHours, asDate, notnaB, h]

lemma stepRow_hoursRow (st : AggState) (q : Rat) :
    stepRow st (hoursRow q) =
      if st.current_date.isSome then
        ⟨none, [], none, st.recs ++ flushRecs { st with pending_hours := some q }⟩
      else st := by
  unfold stepRow
  cases hc : st.current_date.isSome <;>
    simp [hoursRow, rowDate, rowActivity, rowHours, asDate, notnaB, clean_text,
      floatOfCell, hc]

/-- One day group of the n-group grid shape: a date, the activity texts of
the following rows, and the closing hours value. -/
structure DayGroup where
  date : PyDate
  acts : List String
  hours : Rat

/-- A well-formed day group: at least one activity row, and every activity
text is non-empty after whitespace normalization. -/
def DayGroup.good (g : DayGroup) : Prop :=
  g.acts ≠ [] ∧ ∀ s ∈ g.acts, clean_text (Cell.text s) ≠ ""

instance decGood (g : DayGroup) : Decidable g.good := by
  unfold DayGroup.good
  infer_instance

/-- The rows of one day group: a date row, the activity rows in order,
then an hours row. -/
def groupRows (g : DayGroup) : List (List Cell) :=
  dateRow g.date :: (g.acts.map activityRow ++ [hoursRow g.hours])

/-- The daily record a good group should produce. -/
def recOf (g : DayGroup) : DailyRecord :=
  ⟨g.date, g.acts.map (fun s => clean_text (Cell.text s)), some g.hours⟩

lemma runRows_append (st : AggState) (a b : List (List Cell)) :
    runRows st (a ++ b) = runRows (runRows st a) b :=
  List.foldl_append _ _ _ _

lemma aggregateFrom_append (st : AggState) (a b : List (List Cell)) :
    aggregateFrom st (a ++ b) = aggregateFrom (runRows st a) b := by
  unfold aggregateFrom
  rw [runRows_append]

lemma runRows_acts (acts : List String) (d : PyDate) (A : List String)
    (p : Option Rat) (rs : List DailyRecord)
    (h : ∀ s ∈ acts, clean_text (Cell.text s) ≠ "") :
    runRows ⟨some d, A, p, rs⟩ (acts.map activityRow)
      = ⟨some d, A ++ acts.map (fun s => clean_text (Cell.text s)), p, rs⟩ := by
  induction acts generalizing A with
  | nil => simp [runRows]
  | cons s rest ih =>
    have hs : ¬ clean_text (Cell.text s) = "" := h s (by simp)
    show runRows (stepRow ⟨some d, A, p, rs⟩ (activityRow s)) (rest.map activityRow) = _
    rw [stepRow_activityRow _ _ hs]
    rw [ih (A ++ [clean_text (Cell.text s)]) (fun t ht => h t (by simp [ht]))]
    simp

lemma run_group (g : DayGroup) (rs : List DailyRecord) (hg : g.good) :
    runRows ⟨none, [], none, rs⟩ (groupRows g) = ⟨none, [], none, rs ++ [recOf g]⟩ := by
  obtain ⟨h1, h2⟩ := hg
  unfold groupRows
  show runRows (stepRow ⟨none, [], none, rs⟩ (dateRow g.date)) _ = _
  rw [stepRow_dateRow]
  simp only [flushRecs, List.append_nil]
  rw [runRows_append, runRows_acts g.acts g.date [] none rs h2]
  have hsingle : ∀ st : AggState, runRows st [hoursRow g.hours] = stepRow st (hoursRow g.hours) :=
    fun st => rfl
  rw [hsingle, stepRow_hoursRow]
  have hmap : ¬ (g.acts.map (fun s => clean_text (Cell.text s))) = [] := by
    simpa using h1
  simp [flushRecs, hmap, recOf]

lemma aggregate_groups (gs : List DayGroup) (rs : List DailyRecord)
    (h : ∀ g ∈ gs, g.good) :
    aggregateFrom ⟨none, [], none, rs⟩ ((gs.map groupRows).flatten) = rs ++ gs.map recOf := by
  induction gs generalizing rs with
  | nil => simp [aggregateFrom, runRows, flushRecs]
  | cons g rest ih =>
    have hg : g.good := h g (by simp)
    simp only [List.map_cons, List.flatten_cons]
    rw [aggregateFrom_append, run_group g rs hg]
    rw [ih (rs ++ [recOf g]) (fun g' hg' => h g' (by simp [hg']))]
    simp

/-! Invariant machinery: flushed records always carry activities. -/

lemma flushRecs_activities_ne (st : AggState) (r : DailyRecord)
    (hr : r ∈ flushRecs st) : r.activities ≠ [] := by
  unfold flushRecs at hr
  cases hcd : st.current_date with
  | none => rw [hcd] at hr; simp at hr
  | some d =>
    rw [hcd] at hr
    dsimp only at hr
    by_cases ha : st.daily_activities = []
    · rw [if_pos ha] at hr; simp at hr
    · rw [if_neg ha] at hr
      simp at hr
      rw [hr]
      exact ha

lemma stepRow_recs_mem (st : AggState) (row : List Cell) (r : DailyRecord)
    (hr : r ∈ (stepRow st row).recs) : r ∈ st.recs ∨ r.activities ≠ [] := by
  unfold stepRow at hr
  cases hd : asDate (rowDate row) <;> rw [hd] at hr
  case some d =>
    rcases List.mem_append.mp hr with h1 | h2
    · exact Or.inl h1
    · exact Or.inr (flushRecs_activities_ne _ _ h2)
  case none =>
    dsimp only at hr
    repeat' split at hr
    all_goals try dsimp only at hr
    all_goals
      first
      | (rcases List.mem_append.mp hr with h1 | h2
         · exact Or.inl (by simpa using h1)
         · exact Or.inr (flushRecs_activities_ne _ _ h2))
      | exact Or.inl (by simpa using hr)

lemma runRows_recs_inv (rows : List (List Cell)) (st : AggState)
    (h : ∀ r ∈ st.recs, r.activities ≠ []) :
    ∀ r ∈ (runRows st rows).recs, r.activities ≠ [] := by
  induction rows generalizing st with
  | nil => exact h
  | cons row rest ih =>
    exact ih (stepRow st row)
      (fun r' hr' => (stepRow_recs_mem st row r' hr').elim (h r') id)

/-! Machinery for the pre-date-row claim: while no day is open, a row
without a date cell can only grow the activity buffer, and that buffer is
irrelevant to everything ever emitted. -/

lemma aggregateFrom_cons (st : AggState) (row : List Cell) (rows : List (List Cell)) :
    aggregateFrom st (row :: rows) = aggregateFrom (stepRow st row) rows := rfl

lemma stepRow_idle_nodate (A : List String) (row : List Cell)
    (h : asDate (rowDate row) = none) :
    stepRow ⟨none, A, none, []⟩ row
      = ⟨none,
         A ++ (if notnaB (rowActivity row) = true ∧ ¬ clean_text (rowActivity row) = ""
               then [clean_text (rowActivity row)] else []),
         none, []⟩ := by
  unfold stepRow
  rw [h]
  by_cases hA : notnaB (rowActivity row) = true
  · by_cases hc : clean_text (rowActivity row) = ""
    · simp [hA, hc]
    · simp [hA, hc]
  · simp [hA]

lemma idle_buffer_irrelevant (rows : List (List Cell)) (A B : List String) :
    aggregateFrom ⟨none, A, none, []⟩ rows = aggregateFrom ⟨none, B, none, []⟩ rows := by
  induction rows generalizing A B with
  | nil => simp [aggregateFrom, runRows, flushRecs]
  | cons row rest ih =>
    rw [aggregateFrom_cons, aggregateFrom_cons]
    cases hd : asDate (rowDate row) with
    | some d =>
      rw [stepRow_dateCell _ _ _ hd, stepRow_dateCell _ _ _ hd]
      simp [flushRecs]
    | none =>
      rw [stepRow_idle_nodate A row hd, stepRow_idle_nodate B row hd]
      exact ih _ _

lemma runRows_nodate_idle :
    ∀ (pre : List (List Cell)), (∀ row ∈ pre, asDate (rowDate row) = none) →
      ∀ A, ∃ A', runRows ⟨none, A, none, []⟩ pre = ⟨none, A', none, []⟩ := by
  intro pre
  induction pre with
  | nil => exact fun _ A => ⟨A, rfl⟩
  | cons row rest ih =>
    intro hpre A
    have h := hpre row (by simp)
    show ∃ A', runRows (stepRow ⟨none, A, none, []⟩ row) rest = _
    rw [stepRow_idle_nodate A row h]
    exact ih (fun r hr => hpre r (by simp [hr])) _

/-! Claim theorems. -/

/-- C1: for a grid of n day groups, each a date row followed by one or
more non-empty activity rows and then an hours row, the aggregator emits
exactly n daily records in scan order; the k-th record carries the k-th
group's date, its cleaned activity strings in row order, and its own hours
value. -/
theorem aggregate_n_groups (gs : List DayGroup) (h : ∀ g ∈ gs, g.good) :
    aggregate ((gs.map groupRows).flatten) = gs.map recOf := by
  have := aggregate_groups gs [] h
  simpa [aggregate, initState] using this

/-- Witness for C1 at the spec's end-to-end grid example: one group, date
2025-03-03, two activities, hours 8. -/
theorem aggregate_n_groups_witness :
    (∀ g ∈ [DayGroup.mk ⟨2025, 3, 3⟩ ["Review tickets", "Write report"] 8], g.good) ∧
    aggregate (([DayGroup.mk ⟨2025, 3, 3⟩ ["Review tickets", "Write report"] 8].map groupRows).flatten)
      = [⟨⟨2025, 3, 3⟩, ["Review tickets", "Write report"], some 8⟩] := by
  constructor
  · decide
  · rw [aggregate_n_groups _ (by decide)]
    decide

/-- C3: a daily record is emitted only when its activity list is
non-empty (its date is set by construction: flushing emits nothing
without an open day).  In particular a day opened by a date cell that
received hours but no non-empty activity text contributes no record. -/
theorem emitted_records_nonempty (rows : List (List Cell)) (r : DailyRecord)
    (hr : r ∈ aggregate rows) : r.activities ≠ [] := by
  unfold aggregate aggregateFrom at hr
  rcases List.mem_append.mp hr with h1 | h2
  · exact runRows_recs_inv rows initState (by simp [initState]) r h1
  · exact flushRecs_activities_ne _ _ h2

/-- Witness for C3 on a concrete grid with one emitted record. -/
theorem emitted_records_nonempty_witness :
    (DailyRecord.mk ⟨2025, 3, 3⟩ ["x"] (some 8)).activities ≠ [] :=
  emitted_records_nonempty
    [dateRow ⟨2025, 3, 3⟩, activityRow "x", hoursRow 8]
    ⟨⟨2025, 3, 3⟩, ["x"], some 8⟩ (by decide)

/-- C6: rows that precede any date-typed cell — in particular rows with
non-empty activity cells — are ignored: the emitted records, and hence
the rendered day sections of the document, are the same as if those rows
were absent, and no error is raised (the aggregator is a total
function). -/
theorem predate_rows_ignored (pre rest : List (List Cell))
    (hpre : ∀ row ∈ pre, asDate (rowDate row) = none) :
    aggregate (pre ++ rest) = aggregate rest ∧
    ((aggregate (pre ++ rest)).map recordLines).flatten
      = ((aggregate rest).map recordLines).flatten := by
  have h1 : aggregate (pre ++ rest) = aggregate rest := by
    unfold aggregate
    rw [aggregateFrom_append]
    obtain ⟨A', hA⟩ := runRows_nodate_idle pre hpre []
    rw [show runRows initState pre = runRows ⟨none, [], none, []⟩ pre from rfl, hA]
    exact idle_buffer_irrelevant rest A' []
  exact ⟨h1, by rw [h1]⟩

/-- Witness for C6: an activity row before the first date row changes
nothing. -/
theorem predate_rows_ignored_witness :
    (∀ row ∈ [activityRow "early"], asDate (rowDate row) = none) ∧
    aggregate ([activityRow "early"] ++ [dateRow ⟨2025, 3, 3⟩, activityRow "x", hoursRow 8])
      = aggregate [dateRow ⟨2025, 3, 3⟩, activityRow "x", hoursRow 8] :=
  ⟨by decide, (predate_rows_ignored _ _ (by decide)).1⟩

/-- C8: on a row without a date cell whose hours cell is present but fails
to parse as a number while a day is open, the failure is swallowed: the
day is flushed with hours unset and the aggregator returns to idle; the
step is a total function, so no row-level parse failure can propagate as
a file-level error.  (Stated for a row whose activity cell is absent,
the shape of an hours row.) -/
theorem hours_failure_swallowed (st : AggState) (row : List Cell) (d : PyDate)
    (hcur : st.current_date = some d)
    (hdate : asDate (rowDate row) = none)
    (hact : notnaB (rowActivity row) = false)
    (hhrs : notnaB (rowHours row) = true)
    (hfail : floatOfCell (rowHours row) = none)
    (hne : st.daily_activities ≠ []) :
    stepRow st row = ⟨none, [], none, st.recs ++ [⟨d, st.daily_activities, none⟩]⟩ := by
  unfold stepRow
  rw [hdate]
  simp [hact, hhrs, hcur, hfail, flushRecs, hne]

/-- Witness for C8: hours cell holding the unparseable text abc. -/
theorem hours_failure_swallowed_witness :
    stepRow ⟨some ⟨2025, 3, 3⟩, ["x"], none, []⟩
        [Cell.empty, Cell.empty, Cell.empty, Cell.empty, Cell.empty, Cell.empty,
         Cell.empty, Cell.empty, Cell.empty, Cell.empty, Cell.empty, Cell.text "abc"]
      = ⟨none, [], none, [⟨⟨2025, 3, 3⟩, ["x"], none⟩]⟩ :=
  hours_failure_swallowed ⟨some ⟨2025, 3, 3⟩, ["x"], none, []⟩
    [Cell.empty, Cell.empty, Cell.empty, Cell.empty, Cell.empty, Cell.empty,
     Cell.empty, Cell.empty, Cell.empty, Cell.empty, Cell.empty, Cell.text "abc"]
    ⟨2025, 3, 3⟩ rfl rfl rfl rfl (by decide) (by decide)

/-- C9: a row whose date column holds a datetime cell triggers only the
date transition: the open day is flushed and a new day is opened with
this date, while any activity text or hours value in the same row is
ignored (the resulting state does not depend on those cells). -/
theorem date_row_overrides (st : AggState) (row : List Cell) (d : PyDate)
    (h : asDate (rowDate row) = some d) :
    stepRow st row = ⟨some d, [], none, st.recs ++ flushRecs st⟩ :=
  stepRow_dateCell st row d h

/-- Witness for C9: a date row also carrying an activity text and an
hours value; neither is picked up. -/
theorem date_row_overrides_witness :
    stepRow ⟨some ⟨2025, 3, 2⟩, ["a"], none, []⟩
        [Cell.empty, Cell.date ⟨2025, 3, 3⟩, Cell.text "ignored", Cell.empty, Cell.empty,
         Cell.empty, Cell.empty, Cell.empty, Cell.empty, Cell.empty, Cell.empty, Cell.number 5]
      = ⟨some ⟨2025, 3, 3⟩, [], none, [⟨⟨2025, 3, 2⟩, ["a"], none⟩]⟩ :=
  (date_row_overrides ⟨some ⟨2025, 3, 2⟩, ["a"], none, []⟩
    [Cell.empty, Cell.date ⟨2025, 3, 3⟩, Cell.text "ignored", Cell.empty, Cell.empty,
     Cell.empty, Cell.empty, Cell.empty, Cell.empty, Cell.empty, Cell.empty, Cell.number 5]
    ⟨2025, 3, 3⟩ rfl).trans (by decide)

/-- C10: a row without a date cell carrying both a non-empty activity
cell and an hours cell while a day is open appends the activity first and
then flushes, so the activity is part of the record emitted by this very
row. -/
theorem activity_then_hours_same_row (st : AggState) (row : List Cell) (d : PyDate)
    (hcur : st.current_date = some d)
    (hdate : asDate (rowDate row) = none)
    (hact : notnaB (rowActivity row) = true)
    (hne : ¬ clean_text (rowActivity row) = "")
    (hhrs : notnaB (rowHours row) = true) :
    stepRow st row
      = ⟨none, [], none,
         st.recs ++ [⟨d, st.daily_activities ++ [clean_text (rowActivity row)],
                      floatOfCell (rowHours row)⟩]⟩ := by
  unfold stepRow
  rw [hdate]
  simp [hact, hne, hhrs, hcur, flushRecs]

/-- Witness for C10: a row with activity text and hours 8 closing an open
day. -/
theorem activity_then_hours_same_row_witness :
    stepRow ⟨some ⟨2025, 3, 3⟩, [], none, []⟩
        [Cell.empty, Cell.empty, Cell.text "Write report", Cell.empty, Cell.empty, Cell.empty,
         Cell.empty, Cell.empty, Cell.empty, Cell.empty, Cell.empty, Cell.number 8]
      = ⟨none, [], none, [⟨⟨2025, 3, 3⟩, ["Write report"], some 8⟩]⟩ :=
  (activity_then_hours_same_row ⟨some ⟨2025, 3, 3⟩, [], none, []⟩
    [Cell.empty, Cell.empty, Cell.text "Write report", Cell.empty, Cell.empty, Cell.empty,
     Cell.empty, Cell.empty, Cell.empty, Cell.empty, Cell.empty, Cell.number 8]
    ⟨2025, 3, 3⟩ rfl rfl rfl (by decide) rfl).trans (by decide)

/-- C2 counterexample: a filename with the tokens reversed is accepted
and parsed, and the resulting range has start strictly after end — the
resolver performs no ordering validation. -/
theorem range_order_cex :
    dateRangeOf "AusbildungsnachweisU27_07.03-03.03.xlsx" "2025"
      = some (⟨2025, 3, 7⟩, ⟨2025, 3, 3⟩) ∧
    dateLE ⟨2025, 3, 7⟩ ⟨2025, 3, 3⟩ = false := by
  exact ⟨by decide, by decide⟩

/-- C2 amended: for every filename from which the resolver extracts a
start and an end token, both parsing, the resulting range is exactly the
pair of parsed token dates in token order; no reordering or ordering
check is applied, so start is less-or-equal end only when the tokens
happen to be ordered. -/
theorem range_is_parsed_pair (filename year s e b : String) (d1 d2 : PyDate)
    (hm : parse_dates_from_filename filename = some (s, e, b))
    (h1 : parse_date s year = Except.ok d1)
    (h2 : parse_date e year = Except.ok d2) :
    dateRangeOf filename year = some (d1, d2) := by
  unfold dateRangeOf
  rw [hm]
  dsimp only
  rw [h1, h2]

/-- Witness for the amended C2 at the ordinary example filename. -/
theorem range_is_parsed_pair_witness :
    parse_dates_from_filename "AusbildungsnachweisU27_03.03-07.03.xlsx"
      = some ("03.03", "07.03", "AusbildungsnachweisU27_03.03-07.03") ∧
    parse_date "03.03" "2025" = Except.ok ⟨2025, 3, 3⟩ ∧
    parse_date "07.03" "2025" = Except.ok ⟨2025, 3, 7⟩ ∧
    dateRangeOf "AusbildungsnachweisU27_03.03-07.03.xlsx" "2025"
      = some (⟨2025, 3, 3⟩, ⟨2025, 3, 7⟩) :=
  ⟨by decide, by decide, by decide,
   range_is_parsed_pair "AusbildungsnachweisU27_03.03-07.03.xlsx" "2025"
     "03.03" "07.03" "AusbildungsnachweisU27_03.03-07.03"
     ⟨2025, 3, 3⟩ ⟨2025, 3, 7⟩ (by decide) (by decide) (by decide)⟩

/-- Modelled from the spec: the year fallback chain exactly as the claim
states it — the metadata cell at row 2, column 11 wins when it exists, is
non-NaN and int()-convertible; otherwise the dot-24 filename test applies;
otherwise the configured default year. -/
def specYearChain (df : DataFrame) (filename default_year : String) : String :=
  match (if 2 < df.nrows ∧ 11 < df.ncols ∧ notnaB (df.cellF 2 11) = true
         then pyIntOfCell (df.cellF 2 11) else none) with
  | some n => toString n
  | none => if strContains filename ".24" then "2024" else default_year

/-- C4 counterexample: on a grid with 12 columns but only 2 rows the
metadata probe raises an index error and the conversion fails, instead of
falling back to the dot-24 rule as the claimed chain would. -/
theorem year_chain_cex :
    actualYearE ⟨2, 12, fun _ _ => Cell.empty⟩ "Ausbildungsnachweis.24.xlsx" "2025"
      = Except.error ConvError.indexError ∧
    specYearChain ⟨2, 12, fun _ _ => Cell.empty⟩ "Ausbildungsnachweis.24.xlsx" "2025"
      = "2024" := by
  exact ⟨by decide, by decide⟩

/-- C4 amended: the claimed first-success-wins fallback chain holds for
every grid that has at least 3 rows whenever it has more than 11 columns;
a grid with more than 11 columns but fewer than 3 rows instead aborts the
conversion with an index error from the metadata probe. -/
theorem year_chain_amended (df : DataFrame) (filename default_year : String)
    (h : 11 < df.ncols → 2 < df.nrows) :
    actualYearE df filename default_year
      = Except.ok (specYearChain df filename default_year) := by
  unfold actualYearE specYearChain DataFrame.ilocE
  by_cases h1 : 11 < df.ncols
  · have h2 : 2 < df.nrows := h h1
    rw [if_pos h1, if_pos (⟨h2, h1⟩ : 2 < df.nrows ∧ 11 < df.ncols)]
    dsimp only
    by_cases h3 : notnaB (df.cellF 2 11) = true
    · rw [if_pos h3,
        if_pos (⟨h2, h1, h3⟩ : 2 < df.nrows ∧ 11 < df.ncols ∧ notnaB (df.cellF 2 11) = true)]
      cases pyIntOfCell (df.cellF 2 11) <;> rfl
    · rw [if_neg h3,
        if_neg (fun hc : 2 < df.nrows ∧ 11 < df.ncols ∧ notnaB (df.cellF 2 11) = true =>
          h3 hc.2.2)]
  · rw [if_neg h1,
      if_neg (fun hc : 2 < df.nrows ∧ 11 < df.ncols ∧ notnaB (df.cellF 2 11) = true =>
        h1 hc.2.1)]

/-- Witness for the amended C4: a 3-row, 12-column grid whose metadata
cell holds the number 2024. -/
theorem year_chain_amended_witness :
    (11 < (12 : Nat) → 2 < (3 : Nat)) ∧
    actualYearE
        ⟨3, 12, fun r c => if r = 2 && c = 11 then Cell.number 2024 else Cell.empty⟩
        "irrelevant.xlsx" "2025"
      = Except.ok (specYearChain
          ⟨3, 12, fun r c => if r = 2 && c = 11 then Cell.number 2024 else Cell.empty⟩
          "irrelevant.xlsx" "2025") :=
  ⟨by omega,
   year_chain_amended
     ⟨3, 12, fun r c => if r = 2 && c = 11 then Cell.number 2024 else Cell.empty⟩
     "irrelevant.xlsx" "2025" (by decide)⟩

/-- C5: the end-to-end example.  For the example filename with default
year 2025 and a grid without override metadata (the empty frame), the
resolver yields tokens 03.03 and 07.03, the year resolves to 2025, the
range is 2025-03-03 to 2025-03-07, the ISO calendar gives year 2025 week
10, the output filename is the canonical one, and the document's first
line is the expected title. -/
theorem end_to_end_example :
    parse_dates_from_filename "AusbildungsnachweisU27_03.03-07.03.xlsx"
      = some ("03.03", "07.03", "AusbildungsnachweisU27_03.03-07.03") ∧
    actualYearE ⟨0, 0, fun _ _ => Cell.empty⟩
        "AusbildungsnachweisU27_03.03-07.03.xlsx" "2025" = Except.ok "2025" ∧
    dateRangeOf "AusbildungsnachweisU27_03.03-07.03.xlsx" "2025"
      = some (⟨2025, 3, 3⟩, ⟨2025, 3, 7⟩) ∧
    isoWeekYear ⟨2025, 3, 3⟩ = (2025, 10) ∧
    (convert ⟨0, 0, fun _ _ => Cell.empty⟩
        "AusbildungsnachweisU27_03.03-07.03.xlsx" "2025").map Prod.fst
      = Except.ok "2025-KW10-Ausbildungsnachweis-03.03-07.03.md" ∧
    (convert ⟨0, 0, fun _ _ => Cell.empty⟩
        "AusbildungsnachweisU27_03.03-07.03.xlsx" "2025").map (fun p => firstLine p.2)
      = Except.ok "# KW10 - Ausbildungsnachweis (03.03.2025 - 07.03.2025)" := by
  refine ⟨by decide, by decide, by decide, by decide, by decide, by decide⟩

/-- C7: parse_date dispatches exactly on the number of dot-separated
parts — three parts are interpreted as day dot month dot two-digit-year,
two parts are combined with the resolved year and interpreted as day dot
month dot four-digit-year, and any other shape fails with the format
error rather than producing a date. -/
theorem parse_date_dispatch (s y : String) :
    ((splitStr s (fun c => c = '.')).length = 3 →
       parse_date s y = strptimeDMY2 s) ∧
    ((splitStr s (fun c => c = '.')).length = 2 →
       parse_date s y = strptimeDMY4 (s ++ "." ++ y)) ∧
    (¬ (splitStr s (fun c => c = '.')).length = 3 →
     ¬ (splitStr s (fun c => c = '.')).length = 2 →
       parse_date s y = Except.error (DateErr.formatErr s)) := by
  refine ⟨fun h3 => ?_, fun h2 => ?_, fun h3 h2 => ?_⟩
  · unfold parse_date
    rw [if_pos h3]
  · unfold parse_date
    rw [if_neg (by omega), if_pos h2]
  · unfold parse_date
    rw [if_neg h3, if_neg h2]

/-- Witness for C7 on the three shapes of token. -/
theorem parse_date_dispatch_witness :
    ((splitStr "03.03.25" (fun c => c = '.')).length = 3 ∧
       parse_date "03.03.25" "2025" = strptimeDMY2 "03.03.25") ∧
    ((splitStr "03.03" (fun c => c = '.')).length = 2 ∧
       parse_date "03.03" "2025" = strptimeDMY4 ("03.03" ++ "." ++ "2025")) ∧
    parse_date "0303" "2025" = Except.error (DateErr.formatErr "0303") :=
  ⟨⟨by decide, (parse_date_dispatch "03.03.25" "2025").1 (by decide)⟩,
   ⟨by decide, (parse_date_dispatch "03.03" "2025").2.1 (by decide)⟩,
   (parse_date_dispatch "0303" "2025").2.2 (by decide) (by decide)⟩

end Nachweis
